import Mathlib

/-!
Shallow embedding of the two React components of the carbon-credit trading
front end: `Dashboard` (a company's own outstanding buy/sell requests with
create/edit/delete forms) and `RequestsReceived` (the inbox view with
accept/reject, bulk processing and an overdue-request alert).

Modelling conventions:
* Each `useState` hook becomes a field of an explicit state record
  (`DashState`, `RRState`); a React handler becomes a pure function from the
  pre-state to the post-state, parameterised by the outcome of the awaited
  API call(s).
* An HTTP request issued through the axios instance is recorded as an
  `ApiCall` value (method, path, body); a handler returns the list of calls
  it issues together with the post-state.
* JavaScript timestamps are epoch milliseconds: a `created_at` string is
  modelled by the integer `new Date(created_at).getTime()`, and `new Date(a)
  < new Date(b)` is integer comparison of those values.  The floating-point
  division in `isOverdue` is modelled by exact rational division: for
  integer millisecond differences the float comparison `x / 86400000 > 7`
  agrees with the exact one (the quotient is at least 1/86400000 away from 7
  whenever it is not exactly 7, far above the rounding error near 7).
* JS numeric fields (`price`, `quantity`, balances) are modelled as `Rat`,
  ids as `Int`, and the JS string-or-fallback idiom `x || fallback` on an
  optional string as `jsOrString` (the empty string is falsy).
-/

namespace Frontend

/-- HTTP method of an axios call. -/
inductive Method
  | GET
  | POST
  | PUT
  | DELETE
deriving DecidableEq, Repr

/-- Record of one buy/sell request as used in the POST/PUT bodies of the
Dashboard form handlers. -/
structure RequestBody where
  recipientId : Int
  type : String
  price : Rat
  quantity : Rat
  reason : String
deriving DecidableEq, Repr

/-- Body of an axios call issued by either component. -/
inductive Body
  | processB (action : String)
  | bulkB (requestIds : List Int) (action : String)
  | requestB (b : RequestBody)
deriving DecidableEq, Repr

/-- One HTTP request issued through the axios instance. -/
structure ApiCall where
  method : Method
  path : String
  body : Option Body
deriving DecidableEq, Repr

/-- The JS idiom `m || fallback` applied to the optional string
`err.response?.data?.message`: an absent or empty (falsy) message yields the
fallback. -/
def jsOrString (m : Option String) (fallback : String) : String :=
  match m with
  | some s => if s = "" then fallback else s
  | none => fallback

/-- Outcome of one awaited API call: the parsed response data on success, or
the optional `err.response?.data?.message` on failure. -/
inductive FetchOutcome (α : Type)
  | success (data : α)
  | failure (message : Option String)
deriving DecidableEq, Repr

/-! ### RequestsReceived component -/

/-- The `ReceivedRequest` interface; `created_at` is modelled as the epoch
milliseconds of `new Date(created_at)`, `requestor` is flattened to its only
field `name`. -/
structure ReceivedRequest where
  id : Int
  requestorId : Int
  type : String
  price : Rat
  quantity : Rat
  reason : String
  status : String
  created_at : Int
  requestorName : String
deriving DecidableEq, Repr

/-- The `useState` hooks of `RequestsReceived`. -/
structure RRState where
  requests : List ReceivedRequest
  loading : Bool
  error : String
  selectedIds : List Int
  showOverdueAlert : Bool
  overdueRequests : List ReceivedRequest
deriving DecidableEq, Repr

/-- Initial state of `RequestsReceived` (the `useState` initialisers). -/
def rrInit : RRState :=
  { requests := []
    loading := true
    error := ""
    selectedIds := []
    showOverdueAlert := false
    overdueRequests := [] }

/-- `fetchRequests`, evaluated at current time `now` (epoch ms) and the
outcome of `api.get("/requests/received")`.  On success it stores the data,
filters the requests created strictly before `now - 7*24*60*60*1000`, and
only when that overdue list is non-empty stores it and shows the alert;
then clears the error.  On failure it sets the error from the message with
fallback `"Failed to fetch requests"`.  `setLoading(true)`/`finally
setLoading(false)` net to `loading := false`. -/
def fetchRequests (now : Int) (outcome : FetchOutcome (List ReceivedRequest))
    (s : RRState) : List ApiCall × RRState :=
  ([⟨Method.GET, "/requests/received", none⟩],
   match outcome with
   | .success data =>
     let overdue := data.filter (fun req => req.created_at < now - 7 * 24 * 60 * 60 * 1000)
     let s1 : RRState := { s with requests := data }
     let s2 : RRState :=
       if overdue.length > 0 then
         { s1 with overdueRequests := overdue, showOverdueAlert := true }
       else s1
     { s2 with error := "", loading := false }
   | .failure msg =>
     { s with error := jsOrString msg "Failed to fetch requests", loading := false })

/-- `isOverdue`: `(now - requestDate) / (1000*60*60*24) > 7`, with the
division taken exactly (see the header note on floats). -/
def isOverdue (now created_at : Int) : Bool :=
  decide ((((now - created_at : Int) : Rat)) / (1000 * 60 * 60 * 24) > 7)

/-- `handleProcessRequest id action`: one POST to `/requests/{id}/process`
with body `{action}`; on success it re-runs `fetchRequests` (outcome
`refetch`, at time `now`) and clears the selection; on failure it sets the
error with fallback `"Failed to " ++ action.toLower ++ " request"`. -/
def handleProcessRequest (id : Int) (action : String)
    (outcome : FetchOutcome Unit) (now : Int)
    (refetch : FetchOutcome (List ReceivedRequest))
    (s : RRState) : List ApiCall × RRState :=
  let call : ApiCall :=
    ⟨Method.POST, "/requests/" ++ toString id ++ "/process", some (Body.processB action)⟩
  match outcome with
  | .success _ =>
    let r := fetchRequests now refetch s
    (call :: r.1, { r.2 with selectedIds := [] })
  | .failure msg =>
    ([call], { s with error := jsOrString msg ("Failed to " ++ action.toLower ++ " request") })

/-- `handleBulkProcess action`: returns immediately (no call, no state
change) when the selection is empty or the `confirm` prompt is declined;
otherwise one POST to `/requests/bulk-process` with body
`{requestIds: selectedIds, action}`; on success it re-runs `fetchRequests`
and clears the selection; on failure it sets the error with fallback
`"Failed to process requests"`. -/
def handleBulkProcess (action : String) (confirmed : Bool)
    (outcome : FetchOutcome Unit) (now : Int)
    (refetch : FetchOutcome (List ReceivedRequest))
    (s : RRState) : List ApiCall × RRState :=
  if s.selectedIds.length = 0 then
    ([], s)
  else if !confirmed then
    ([], s)
  else
    let call : ApiCall :=
      ⟨Method.POST, "/requests/bulk-process", some (Body.bulkB s.selectedIds action)⟩
    match outcome with
    | .success _ =>
      let r := fetchRequests now refetch s
      (call :: r.1, { r.2 with selectedIds := [] })
    | .failure msg =>
      ([call], { s with error := jsOrString msg "Failed to process requests" })

/-- `handleCheckboxChange id` on the previous `selectedIds`:
`prev.includes(id) ? prev.filter(i => i !== id) : [...prev, id]`. -/
def handleCheckboxChange (id : Int) (prev : List Int) : List Int :=
  if prev.contains id then prev.filter (fun i => i != id) else prev ++ [id]

/-- `handleSelectAll`: empty the selection when its length equals the number
of requests, else select the ids of all requests in table order. -/
def handleSelectAll (s : RRState) : RRState :=
  if s.selectedIds.length = s.requests.length then
    { s with selectedIds := [] }
  else
    { s with selectedIds := s.requests.map (fun r => r.id) }

/-! ### Dashboard component -/

/-- The `Balance` interface. -/
structure Balance where
  companyName : String
  carbonBalance : Rat
  cashBalance : Rat
deriving DecidableEq, Repr

/-- The `Company` interface. -/
structure Company where
  id : Int
  name : String
deriving DecidableEq, Repr

/-- The Dashboard's `Request` interface; `recipient` flattened to `name`,
`created_at` as epoch ms. -/
structure MadeRequest where
  id : Int
  recipientId : Int
  type : String
  price : Rat
  quantity : Rat
  reason : String
  status : String
  created_at : Int
  recipientName : String
deriving DecidableEq, Repr

/-- The controlled form fields (all strings, as in the component). -/
structure FormData where
  recipientId : String
  type : String
  price : String
  quantity : String
  reason : String
deriving DecidableEq, Repr

/-- The `formData` initialiser, also used by `resetForm`. -/
def defaultFormData : FormData :=
  { recipientId := "", type := "BUY", price := "", quantity := "", reason := "" }

/-- The `useState` hooks of `Dashboard`. -/
structure DashState where
  balance : Option Balance
  requests : List MadeRequest
  companies : List Company
  loading : Bool
  error : String
  showRequestForm : Bool
  editingRequest : Option MadeRequest
  formData : FormData
deriving DecidableEq, Repr

/-- Initial state of `Dashboard` (the `useState` initialisers). -/
def dashInit : DashState :=
  { balance := none
    requests := []
    companies := []
    loading := true
    error := ""
    showRequestForm := false
    editingRequest := none
    formData := defaultFormData }

/-- Outcome of the `Promise.all` of the three GETs in `fetchData`: all three
response bodies on success, or the first rejection's optional message. -/
inductive DashFetchOutcome
  | success (balance : Balance) (requests : List MadeRequest) (companies : List Company)
  | failure (message : Option String)
deriving DecidableEq, Repr

/-- `fetchData`: three GETs (`/company/balance`, `/requests/made`,
`/company/list`) through `Promise.all`; if all succeed the three bodies are
stored and the error cleared; if any fails only the error is set (fallback
`"Failed to fetch data"`).  `loading` nets to `false`. -/
def fetchData (outcome : DashFetchOutcome) (s : DashState) : List ApiCall × DashState :=
  ([⟨Method.GET, "/company/balance", none⟩,
    ⟨Method.GET, "/requests/made", none⟩,
    ⟨Method.GET, "/company/list", none⟩],
   match outcome with
   | .success b r c =>
     { s with balance := some b, requests := r, companies := c, error := "", loading := false }
   | .failure msg =>
     { s with error := jsOrString msg "Failed to fetch data", loading := false })

/-- `resetForm`: default form data, stop editing, close the form. -/
def resetForm (s : DashState) : DashState :=
  { s with formData := defaultFormData, editingRequest := none, showRequestForm := false }

/-- The request body built by both form handlers from the current form data,
given the (abstract) JS `parseInt` and `parseFloat`. -/
def formBody (parseIntJS : String → Int) (parseFloatJS : String → Rat)
    (f : FormData) : RequestBody :=
  { recipientId := parseIntJS f.recipientId
    type := f.type
    price := parseFloatJS f.price
    quantity := parseFloatJS f.quantity
    reason := f.reason }

/-- `handleCreateRequest`: POST to `/requests` with the parsed form body; on
success close the form, reset it, and re-run `fetchData`; on failure set the
error (fallback `"Failed to create request"`). -/
def handleCreateRequest (parseIntJS : String → Int) (parseFloatJS : String → Rat)
    (outcome : FetchOutcome Unit) (refetch : DashFetchOutcome)
    (s : DashState) : List ApiCall × DashState :=
  let call : ApiCall :=
    ⟨Method.POST, "/requests", some (Body.requestB (formBody parseIntJS parseFloatJS s.formData))⟩
  match outcome with
  | .success _ =>
    let s1 := resetForm { s with showRequestForm := false }
    let r := fetchData refetch s1
    (call :: r.1, r.2)
  | .failure msg =>
    ([call], { s with error := jsOrString msg "Failed to create request" })

/-- `handleUpdateRequest`: a no-op when no request is being edited;
otherwise PUT to `/requests/{editingRequest.id}` with the parsed form body;
on success stop editing, reset the form, and re-run `fetchData`; on failure
set the error (fallback `"Failed to update request"`). -/
def handleUpdateRequest (parseIntJS : String → Int) (parseFloatJS : String → Rat)
    (outcome : FetchOutcome Unit) (refetch : DashFetchOutcome)
    (s : DashState) : List ApiCall × DashState :=
  match s.editingRequest with
  | none => ([], s)
  | some req =>
    let call : ApiCall :=
      ⟨Method.PUT, "/requests/" ++ toString req.id,
       some (Body.requestB (formBody parseIntJS parseFloatJS s.formData))⟩
    match outcome with
    | .success _ =>
      let s1 := resetForm { s with editingRequest := none }
      let r := fetchData refetch s1
      (call :: r.1, r.2)
    | .failure msg =>
      ([call], { s with error := jsOrString msg "Failed to update request" })

/-- `handleDeleteRequest id`: a no-op when the `confirm` prompt is declined;
otherwise DELETE `/requests/{id}`; on success re-run `fetchData`; on failure
set the error (fallback `"Failed to delete request"`). -/
def handleDeleteRequest (id : Int) (confirmed : Bool)
    (outcome : FetchOutcome Unit) (refetch : DashFetchOutcome)
    (s : DashState) : List ApiCall × DashState :=
  if !confirmed then
    ([], s)
  else
    let call : ApiCall := ⟨Method.DELETE, "/requests/" ++ toString id, none⟩
    match outcome with
    | .success _ =>
      let r := fetchData refetch s
      (call :: r.1, r.2)
    | .failure msg =>
      ([call], { s with error := jsOrString msg "Failed to delete request" })

/-- The error banner of either component: rendered exactly when the `error`
state is truthy, i.e. a non-empty string (`{error && <div .../>}`). -/
def errorBannerShown (error : String) : Bool :=
  error != ""

end Frontend

namespace Frontend

/-! ### Helper lemmas -/

theorem string_append_assoc (a b c : String) : a ++ b ++ c = a ++ (b ++ c) := by
  apply String.ext
  simp [String.data_append]

theorem requests_slash : ("/requests/" : String) = "/requests" ++ "/" := by decide

theorem jsOrString_ne_empty (m : Option String) (fallback : String) (h : fallback ≠ "") :
    jsOrString m fallback ≠ "" := by
  cases m with
  | none => simpa [jsOrString] using h
  | some s =>
    by_cases hs : s = "" <;> simp [jsOrString, hs, h]

theorem isOverdue_iff (now t : Int) :
    isOverdue now t = true ↔ t < now - 7 * 24 * 60 * 60 * 1000 := by
  unfold isOverdue
  rw [decide_eq_true_eq, gt_iff_lt,
    lt_div_iff₀ (by norm_num : (0 : ℚ) < 1000 * 60 * 60 * 24),
    show ((7 : ℚ) * (1000 * 60 * 60 * 24)) = ((604800000 : Int) : ℚ) from by norm_num,
    Int.cast_lt]
  omega

end Frontend

namespace Frontend

/-- C3: the filter used to build the alert list in `fetchRequests`
(`created_at` strictly earlier than `now` minus 7*24*60*60*1000 ms) holds
exactly when the `isOverdue` predicate used for row highlighting
(`(now - created_at) / (1000*60*60*24) > 7`, strictly) holds, given the same
value of `now`; hence the two overdue classifications agree on every request
list. -/
theorem overdue_filter_iff_isOverdue (now t : Int) (data : List ReceivedRequest) :
    (t < now - 7 * 24 * 60 * 60 * 1000 ↔ isOverdue now t = true) ∧
    data.filter (fun req => req.created_at < now - 7 * 24 * 60 * 60 * 1000)
      = data.filter (fun req => isOverdue now req.created_at) := by
  constructor
  · exact (isOverdue_iff now t).symm
  · apply List.filter_congr
    intro r _
    have h := isOverdue_iff now r.created_at
    by_cases hc : r.created_at < now - 7 * 24 * 60 * 60 * 1000
    · simp [hc, h.mpr hc]
      omega
    · have hfalse : isOverdue now r.created_at = false := by
        rcases Bool.eq_false_or_eq_true (isOverdue now r.created_at) with hb | hb
        · exact absurd (h.mp hb) hc
        · exact hb
      simp [hc, hfalse]
      omega

/-- C8: `handleCheckboxChange id` removes every occurrence of `id` when `id`
is selected and appends `id` otherwise; it flips the membership of `id`,
leaves the membership of every other id unchanged, and applying it twice to
a duplicate-free selection preserves membership. -/
theorem handleCheckboxChange_toggles (id : Int) (prev : List Int) :
    (id ∈ prev → handleCheckboxChange id prev = prev.filter (fun i => i != id)) ∧
    (id ∉ prev → handleCheckboxChange id prev = prev ++ [id]) ∧
    (id ∈ handleCheckboxChange id prev ↔ id ∉ prev) ∧
    (∀ j, j ≠ id → (j ∈ handleCheckboxChange id prev ↔ j ∈ prev)) ∧
    (prev.Nodup →
      ∀ j, j ∈ handleCheckboxChange id (handleCheckboxChange id prev) ↔ j ∈ prev) := by
  by_cases h : id ∈ prev
  · refine ⟨fun _ => by simp [handleCheckboxChange, h], fun h' => absurd h h', ?_, ?_, ?_⟩
    · simp [handleCheckboxChange, h]
    · intro j hj
      simp [handleCheckboxChange, h, hj]
    · intro _ j
      by_cases hj : j = id
      · subst hj
        simp [handleCheckboxChange, h]
      · simp [handleCheckboxChange, h, hj]
  · refine ⟨fun h' => absurd h' h, fun _ => by simp [handleCheckboxChange, h], ?_, ?_, ?_⟩
    · simp [handleCheckboxChange, h]
    · intro j hj
      simp [handleCheckboxChange, h, hj]
    · intro _ j
      by_cases hj : j = id
      · subst hj
        simp [handleCheckboxChange, h]
      · have hj' : j ∈ prev ++ [id] ↔ j ∈ prev := by simp [hj]
        simp [handleCheckboxChange, h, hj, hj']

/-- C9: after `handleSelectAll`, the selection is empty when its length
equalled the number of displayed requests beforehand, and otherwise is the
list of ids of all displayed requests in table order; so afterwards it is
always all-or-nothing. -/
theorem handleSelectAll_all_or_nothing (s : RRState) :
    (s.selectedIds.length = s.requests.length → (handleSelectAll s).selectedIds = []) ∧
    (s.selectedIds.length ≠ s.requests.length →
      (handleSelectAll s).selectedIds = s.requests.map (fun r => r.id)) ∧
    ((handleSelectAll s).selectedIds = [] ∨
      (handleSelectAll s).selectedIds = s.requests.map (fun r => r.id)) := by
  by_cases h : s.selectedIds.length = s.requests.length <;> simp [handleSelectAll, h]

/-- C10: with an empty selection, or when the confirmation prompt is
declined, `handleBulkProcess` issues no API call and returns the state
unchanged in every field. -/
theorem handleBulkProcess_noop (action : String) (confirmed : Bool)
    (outcome : FetchOutcome Unit) (now : Int)
    (refetch : FetchOutcome (List ReceivedRequest)) (s : RRState) :
    (s.selectedIds = [] → handleBulkProcess action confirmed outcome now refetch s = ([], s)) ∧
    (confirmed = false → handleBulkProcess action confirmed outcome now refetch s = ([], s)) := by
  constructor
  · intro h
    simp [handleBulkProcess, h]
  · intro h
    subst h
    by_cases h0 : s.selectedIds.length = 0 <;> simp [handleBulkProcess, h0]

end Frontend

namespace Frontend

/-- C1 counterexample: the claimed "if and only if" between the alert being
shown after a fetch and the overdue set being non-empty fails.  Starting
from the initial state, a first fetch returns one request created at epoch 0
with the current time 700000000000 ms (overdue), which shows the alert; a
second fetch returns an empty list, whose overdue set is empty, yet the
alert is still shown after it. -/
theorem overdue_alert_iff_counterexample :
    ((fetchRequests 700000000000 (FetchOutcome.success [])
        ((fetchRequests 700000000000
            (FetchOutcome.success
              [⟨1, 2, "BUY", 10, 5, "", "PENDING", 0, "Acme"⟩]) rrInit).2)).2).showOverdueAlert
      = true ∧
    List.filter (fun req => decide (req.created_at < 700000000000 - 7 * 24 * 60 * 60 * 1000))
      ([] : List ReceivedRequest) = [] := by
  constructor
  · simp [fetchRequests, rrInit]
  · rfl

/-- C1 amended: a fetched received request is classified as overdue (put in
the overdue list computed by `fetchRequests`, and highlighted by
`isOverdue`) if and only if strictly more than 7*24*60*60*1000 ms have
elapsed between its `created_at` timestamp and the current time; after a
fetch the alert is shown and the overdue list stored whenever that set is
non-empty, while a fetch with an empty overdue set leaves the alert flag and
the stored overdue list unchanged (so a previously shown alert can remain
shown). -/
theorem fetch_classifies_overdue (now : Int) (data : List ReceivedRequest) (s : RRState) :
    (∀ r ∈ data,
      (r ∈ data.filter (fun req => req.created_at < now - 7 * 24 * 60 * 60 * 1000) ↔
        now - r.created_at > 7 * 24 * 60 * 60 * 1000) ∧
      (r ∈ data.filter (fun req => req.created_at < now - 7 * 24 * 60 * 60 * 1000) ↔
        isOverdue now r.created_at = true)) ∧
    (data.filter (fun req => req.created_at < now - 7 * 24 * 60 * 60 * 1000) ≠ [] →
      ((fetchRequests now (FetchOutcome.success data) s).2).overdueRequests
        = data.filter (fun req => req.created_at < now - 7 * 24 * 60 * 60 * 1000) ∧
      ((fetchRequests now (FetchOutcome.success data) s).2).showOverdueAlert = true) ∧
    (data.filter (fun req => req.created_at < now - 7 * 24 * 60 * 60 * 1000) = [] →
      ((fetchRequests now (FetchOutcome.success data) s).2).overdueRequests
        = s.overdueRequests ∧
      ((fetchRequests now (FetchOutcome.success data) s).2).showOverdueAlert
        = s.showOverdueAlert) := by
  refine ⟨?_, ?_, ?_⟩
  · intro r hr
    constructor
    · rw [List.mem_filter]
      simp [hr]
      omega
    · rw [List.mem_filter, isOverdue_iff]
      simp [hr]
  · intro h
    have hl : 0 < (data.filter
        (fun req => decide (req.created_at < now - 7 * 24 * 60 * 60 * 1000))).length :=
      List.length_pos.mpr h
    simp only [fetchRequests]
    rw [if_pos hl]
    exact ⟨rfl, rfl⟩
  · intro h
    have hnl : ¬ 0 < (data.filter
        (fun req => decide (req.created_at < now - 7 * 24 * 60 * 60 * 1000))).length := by
      rw [h]
      simp
    simp only [fetchRequests]
    rw [if_neg hnl]
    exact ⟨rfl, rfl⟩

end Frontend


namespace Frontend

/-- The endpoints of the amended C2: `/company/balance`, `/company/list`,
or a path under `/requests`. -/
def allowedPath (p : String) : Prop :=
  p = "/company/balance" ∨ p = "/company/list" ∨ ∃ rest, p = "/requests" ++ rest

theorem allowedPath_requests_slash (t : String) : allowedPath ("/requests/" ++ t) := by
  refine Or.inr (Or.inr ⟨"/" ++ t, ?_⟩)
  rw [requests_slash, string_append_assoc]

theorem allowedPath_requests_slash2 (t u : String) :
    allowedPath ("/requests/" ++ t ++ u) := by
  refine Or.inr (Or.inr ⟨"/" ++ (t ++ u), ?_⟩)
  rw [requests_slash]
  simp only [string_append_assoc]

/-- C2 counterexample: `fetchData` issues a GET to `/company/list`, an
endpoint that is neither `/company/balance` nor a path under `/requests`. -/
theorem company_list_endpoint_counterexample :
    (ApiCall.mk Method.GET "/company/list" Option.none)
      ∈ (fetchData (DashFetchOutcome.failure Option.none) dashInit).1 ∧
    ¬ ((ApiCall.mk Method.GET "/company/list" Option.none).path = "/company/balance" ∨
       ∃ rest, (ApiCall.mk Method.GET "/company/list" Option.none).path
         = "/requests" ++ rest) := by
  constructor
  · simp [fetchData]
  · rintro (h | ⟨rest, h⟩)
    · exact absurd h (by decide)
    · have hd := congrArg String.data h
      rw [String.data_append] at hd
      simp at hd

/-- C2 amended: every HTTP request issued by any handler of the two
components targets `/company/balance`, `/company/list`, or a path under
`/requests` (request listing made/received, creation, update, deletion,
single-request processing, bulk processing); no other endpoint is ever
called. -/
theorem all_calls_target_known_endpoints
    (now : Int) (rout : FetchOutcome (List ReceivedRequest)) (s : RRState)
    (id : Int) (action : String) (pout : FetchOutcome Unit)
    (confirmed : Bool) (dout : DashFetchOutcome) (ds : DashState)
    (pI : String → Int) (pF : String → Rat) (c : ApiCall)
    (hc : c ∈ (fetchRequests now rout s).1 ∨
      c ∈ (handleProcessRequest id action pout now rout s).1 ∨
      c ∈ (handleBulkProcess action confirmed pout now rout s).1 ∨
      c ∈ (fetchData dout ds).1 ∨
      c ∈ (handleCreateRequest pI pF pout dout ds).1 ∨
      c ∈ (handleUpdateRequest pI pF pout dout ds).1 ∨
      c ∈ (handleDeleteRequest id confirmed pout dout ds).1) :
    allowedPath c.path := by
  have hreceived : allowedPath "/requests/received" :=
    Or.inr (Or.inr ⟨"/received", by decide⟩)
  have hbalance : allowedPath "/company/balance" := Or.inl rfl
  have hmade : allowedPath "/requests/made" :=
    Or.inr (Or.inr ⟨"/made", by decide⟩)
  have hlist : allowedPath "/company/list" := Or.inr (Or.inl rfl)
  have hbulk : allowedPath "/requests/bulk-process" :=
    Or.inr (Or.inr ⟨"/bulk-process", by decide⟩)
  have hreqs : allowedPath "/requests" :=
    Or.inr (Or.inr ⟨"", by decide⟩)
  rcases hc with hc | hc | hc | hc | hc | hc | hc
  · simp [fetchRequests] at hc
    subst hc
    exact hreceived
  · cases pout with
    | success u =>
      simp [handleProcessRequest, fetchRequests] at hc
      rcases hc with rfl | rfl
      · exact allowedPath_requests_slash2 (toString id) "/process"
      · exact hreceived
    | failure m =>
      simp [handleProcessRequest] at hc
      subst hc
      exact allowedPath_requests_slash2 (toString id) "/process"
  · by_cases h0 : s.selectedIds.length = 0
    · simp [handleBulkProcess, h0] at hc
    · cases confirmed with
      | false => simp [handleBulkProcess, h0] at hc
      | true =>
        cases pout with
        | success u =>
          simp [handleBulkProcess, h0, fetchRequests] at hc
          rcases hc with rfl | rfl
          · exact hbulk
          · exact hreceived
        | failure m =>
          simp [handleBulkProcess, h0] at hc
          subst hc
          exact hbulk
  · simp [fetchData] at hc
    rcases hc with rfl | rfl | rfl
    · exact hbalance
    · exact hmade
    · exact hlist
  · cases pout with
    | success u =>
      simp [handleCreateRequest, fetchData] at hc
      rcases hc with rfl | rfl | rfl | rfl
      · exact hreqs
      · exact hbalance
      · exact hmade
      · exact hlist
    | failure m =>
      simp [handleCreateRequest] at hc
      subst hc
      exact hreqs
  · cases he : ds.editingRequest with
    | none => simp [handleUpdateRequest, he] at hc
    | some req =>
      cases pout with
      | success u =>
        simp [handleUpdateRequest, he, fetchData] at hc
        rcases hc with rfl | rfl | rfl | rfl
        · exact allowedPath_requests_slash (toString req.id)
        · exact hbalance
        · exact hmade
        · exact hlist
      | failure m =>
        simp [handleUpdateRequest, he] at hc
        subst hc
        exact allowedPath_requests_slash (toString req.id)
  · cases confirmed with
    | false => simp [handleDeleteRequest] at hc
    | true =>
      cases pout with
      | success u =>
        simp [handleDeleteRequest, fetchData] at hc
        rcases hc with rfl | rfl | rfl | rfl
        · exact allowedPath_requests_slash (toString id)
        · exact hbalance
        · exact hmade
        · exact hlist
      | failure m =>
        simp [handleDeleteRequest] at hc
        subst hc
        exact allowedPath_requests_slash (toString id)

/-- Witness for the amended C2 theorem at a concrete call: the GET to
`/company/balance` issued by `fetchData` targets an allowed endpoint. -/
theorem all_calls_target_known_endpoints_witness :
    allowedPath (ApiCall.mk Method.GET "/company/balance" Option.none).path :=
  all_calls_target_known_endpoints 0 (FetchOutcome.success []) rrInit 0 "ACCEPT"
    (FetchOutcome.success ()) true (DashFetchOutcome.failure Option.none) dashInit
    (fun _ => 0) (fun _ => 0) (ApiCall.mk Method.GET "/company/balance" Option.none)
    (Or.inr (Or.inr (Or.inr (Or.inl (by simp [fetchData])))))

end Frontend

namespace Frontend

/-- C4 counterexample: an API error response whose `message` field is
present but equal to the empty string.  The claim says the error state is
then set to that message (the empty string); the code's `||` treats the
empty string as falsy and sets the fallback instead. -/
theorem empty_message_error_counterexample :
    ((fetchData (DashFetchOutcome.failure (some "")) dashInit).2).error
      = "Failed to fetch data" ∧
    ((fetchData (DashFetchOutcome.failure (some "")) dashInit).2).error ≠ "" := by
  constructor
  · rfl
  · simp [fetchData, jsOrString, dashInit]

/-- C4 amended: when an API call fails, the error state is set to the
`message` field of the error response when that field is present and
non-empty (JS-truthy), and otherwise to the operation-specific fallback
string; a successful data fetch resets the error state to the empty string,
and the error banner is rendered exactly when the error state is non-empty. -/
theorem error_state_spec
    (now : Int) (s : RRState) (ds : DashState) (m : String) (msg : Option String)
    (id : Int) (action : String) (refR : FetchOutcome (List ReceivedRequest))
    (refD : DashFetchOutcome) (pI : String → Int) (pF : String → Rat)
    (data : List ReceivedRequest) (req : MadeRequest)
    (b : Balance) (rs : List MadeRequest) (cs : List Company) (e : String) :
    (m ≠ "" →
      ((fetchRequests now (FetchOutcome.failure (some m)) s).2).error = m ∧
      ((handleProcessRequest id action (FetchOutcome.failure (some m)) now refR s).2).error
        = m ∧
      (s.selectedIds ≠ [] →
        ((handleBulkProcess action true (FetchOutcome.failure (some m)) now refR s).2).error
          = m) ∧
      ((fetchData (DashFetchOutcome.failure (some m)) ds).2).error = m ∧
      ((handleCreateRequest pI pF (FetchOutcome.failure (some m)) refD ds).2).error = m ∧
      (ds.editingRequest = some req →
        ((handleUpdateRequest pI pF (FetchOutcome.failure (some m)) refD ds).2).error = m) ∧
      ((handleDeleteRequest id true (FetchOutcome.failure (some m)) refD ds).2).error = m) ∧
    ((msg = none ∨ msg = some "") →
      ((fetchRequests now (FetchOutcome.failure msg) s).2).error
        = "Failed to fetch requests" ∧
      ((handleProcessRequest id action (FetchOutcome.failure msg) now refR s).2).error
        = "Failed to " ++ action.toLower ++ " request" ∧
      (s.selectedIds ≠ [] →
        ((handleBulkProcess action true (FetchOutcome.failure msg) now refR s).2).error
          = "Failed to process requests") ∧
      ((fetchData (DashFetchOutcome.failure msg) ds).2).error = "Failed to fetch data" ∧
      ((handleCreateRequest pI pF (FetchOutcome.failure msg) refD ds).2).error
        = "Failed to create request" ∧
      (ds.editingRequest = some req →
        ((handleUpdateRequest pI pF (FetchOutcome.failure msg) refD ds).2).error
          = "Failed to update request") ∧
      ((handleDeleteRequest id true (FetchOutcome.failure msg) refD ds).2).error
        = "Failed to delete request") ∧
    ((fetchRequests now (FetchOutcome.success data) s).2).error = "" ∧
    ((fetchData (DashFetchOutcome.success b rs cs) ds).2).error = "" ∧
    (errorBannerShown e = true ↔ e ≠ "") := by
  have hsel : ∀ h : s.selectedIds ≠ [], ¬ s.selectedIds.length = 0 := by
    intro h
    simpa [List.length_eq_zero] using h
  refine ⟨?_, ?_, ?_, ?_, ?_⟩
  · intro hm
    refine ⟨?_, ?_, ?_, ?_, ?_, ?_, ?_⟩
    · simp [fetchRequests, jsOrString, hm]
    · simp [handleProcessRequest, jsOrString, hm]
    · intro hs
      simp [handleBulkProcess, hsel hs, jsOrString, hm]
    · simp [fetchData, jsOrString, hm]
    · simp [handleCreateRequest, jsOrString, hm]
    · intro he
      simp [handleUpdateRequest, he, jsOrString, hm]
    · simp [handleDeleteRequest, jsOrString, hm]
  · intro hmsg
    have hj : ∀ fb : String, jsOrString msg fb = fb := by
      intro fb
      rcases hmsg with h | h <;> subst h <;> simp [jsOrString]
    refine ⟨?_, ?_, ?_, ?_, ?_, ?_, ?_⟩
    · simp [fetchRequests, hj]
    · simp [handleProcessRequest, hj]
    · intro hs
      simp [handleBulkProcess, hsel hs, hj]
    · simp [fetchData, hj]
    · simp [handleCreateRequest, hj]
    · intro he
      simp [handleUpdateRequest, he, hj]
    · simp [handleDeleteRequest, hj]
  · by_cases hl : 0 < (data.filter
        (fun r => decide (r.created_at < now - 7 * 24 * 60 * 60 * 1000))).length <;>
      simp [fetchRequests, hl]
  · simp [fetchData]
  · simp [errorBannerShown]

/-- C5: `handleProcessRequest id action` issues exactly one POST, to
`/requests/{id}/process` with body `{action}`; `handleBulkProcess` with a
non-empty selection and an accepted confirmation issues exactly one POST, to
`/requests/bulk-process` with body `{requestIds: selectedIds, action}`; on
success each also issues the refetch GET of the received-requests list,
stores its result, and clears the selection. -/
theorem process_and_bulk_spec (id : Int) (action : String) (now : Int)
    (refetch : FetchOutcome (List ReceivedRequest)) (s : RRState) (msg : Option String) :
    ((handleProcessRequest id action (FetchOutcome.success ()) now refetch s).1
      = [⟨Method.POST, "/requests/" ++ toString id ++ "/process", some (Body.processB action)⟩,
         ⟨Method.GET, "/requests/received", none⟩] ∧
     ((handleProcessRequest id action (FetchOutcome.success ()) now refetch s).2).selectedIds
       = [] ∧
     ((handleProcessRequest id action (FetchOutcome.success ()) now refetch s).2).requests
       = ((fetchRequests now refetch s).2).requests) ∧
    ((handleProcessRequest id action (FetchOutcome.failure msg) now refetch s).1
      = [⟨Method.POST, "/requests/" ++ toString id ++ "/process",
          some (Body.processB action)⟩]) ∧
    (s.selectedIds ≠ [] →
      ((handleBulkProcess action true (FetchOutcome.success ()) now refetch s).1
        = [⟨Method.POST, "/requests/bulk-process", some (Body.bulkB s.selectedIds action)⟩,
           ⟨Method.GET, "/requests/received", none⟩] ∧
       ((handleBulkProcess action true (FetchOutcome.success ()) now refetch s).2).selectedIds
         = [] ∧
       ((handleBulkProcess action true (FetchOutcome.success ()) now refetch s).2).requests
         = ((fetchRequests now refetch s).2).requests ∧
       (handleBulkProcess action true (FetchOutcome.failure msg) now refetch s).1
         = [⟨Method.POST, "/requests/bulk-process",
             some (Body.bulkB s.selectedIds action)⟩])) := by
  refine ⟨⟨?_, ?_, ?_⟩, ?_, ?_⟩
  · simp [handleProcessRequest, fetchRequests]
  · simp [handleProcessRequest]
  · simp [handleProcessRequest]
  · simp [handleProcessRequest]
  · intro hs
    have h0 : ¬ s.selectedIds.length = 0 := by
      simpa [List.length_eq_zero] using hs
    refine ⟨?_, ?_, ?_, ?_⟩
    · simp [handleBulkProcess, h0, fetchRequests]
    · simp [handleBulkProcess, h0]
    · simp [handleBulkProcess, h0]
    · simp [handleBulkProcess, h0]

end Frontend

namespace Frontend

/-- C6: `fetchData` issues exactly the three GETs `/company/balance`,
`/requests/made`, `/company/list` (as one `Promise.all` batch); iff all
three succeed, their bodies are stored into the `balance`, `requests` and
`companies` states and the error is cleared; if any fails, none of those
three states (nor the form states) is updated and the error state is set to
a non-empty message. -/
theorem fetchData_spec (outcome : DashFetchOutcome) (s : DashState) :
    (fetchData outcome s).1 =
      [⟨Method.GET, "/company/balance", none⟩,
       ⟨Method.GET, "/requests/made", none⟩,
       ⟨Method.GET, "/company/list", none⟩] ∧
    (∀ b r c, outcome = DashFetchOutcome.success b r c →
      ((fetchData outcome s).2).balance = some b ∧
      ((fetchData outcome s).2).requests = r ∧
      ((fetchData outcome s).2).companies = c ∧
      ((fetchData outcome s).2).error = "") ∧
    (∀ msg, outcome = DashFetchOutcome.failure msg →
      ((fetchData outcome s).2).balance = s.balance ∧
      ((fetchData outcome s).2).requests = s.requests ∧
      ((fetchData outcome s).2).companies = s.companies ∧
      ((fetchData outcome s).2).error = jsOrString msg "Failed to fetch data" ∧
      ((fetchData outcome s).2).error ≠ "" ∧
      ((fetchData outcome s).2).showRequestForm = s.showRequestForm ∧
      ((fetchData outcome s).2).editingRequest = s.editingRequest ∧
      ((fetchData outcome s).2).formData = s.formData) := by
  refine ⟨rfl, ?_, ?_⟩
  · intro b r c h
    subst h
    exact ⟨rfl, rfl, rfl, rfl⟩
  · intro msg h
    subst h
    exact ⟨rfl, rfl, rfl, rfl,
      jsOrString_ne_empty msg "Failed to fetch data" (by decide), rfl, rfl, rfl⟩

/-- C7: `handleCreateRequest` POSTs to `/requests` a body whose
`recipientId` is the integer parse of the form's `recipientId` string,
whose `price`/`quantity` are the float parses of their form strings, and
whose `reason` is the raw reason string; `handleUpdateRequest` sends the
same body via PUT to `/requests/{id}` of the request being edited and does
nothing when none is being edited; on success each resets the form to its
defaults, closes it, and re-runs `fetchData`. -/
theorem form_handlers_spec (pI : String → Int) (pF : String → Rat)
    (refetch : DashFetchOutcome) (s : DashState) (req : MadeRequest)
    (outcome : FetchOutcome Unit) :
    ((handleCreateRequest pI pF (FetchOutcome.success ()) refetch s).1
      = ⟨Method.POST, "/requests",
          some (Body.requestB
            { recipientId := pI s.formData.recipientId
              type := s.formData.type
              price := pF s.formData.price
              quantity := pF s.formData.quantity
              reason := s.formData.reason })⟩
        :: (fetchData refetch (resetForm s)).1) ∧
    ((handleCreateRequest pI pF (FetchOutcome.success ()) refetch s).2
      = (fetchData refetch (resetForm s)).2) ∧
    (((handleCreateRequest pI pF (FetchOutcome.success ()) refetch s).2).formData
        = defaultFormData ∧
     ((handleCreateRequest pI pF (FetchOutcome.success ()) refetch s).2).showRequestForm
        = false ∧
     ((handleCreateRequest pI pF (FetchOutcome.success ()) refetch s).2).editingRequest
        = none) ∧
    (s.editingRequest = some req →
      ((handleUpdateRequest pI pF (FetchOutcome.success ()) refetch s).1
        = ⟨Method.PUT, "/requests/" ++ toString req.id,
            some (Body.requestB
              { recipientId := pI s.formData.recipientId
                type := s.formData.type
                price := pF s.formData.price
                quantity := pF s.formData.quantity
                reason := s.formData.reason })⟩
          :: (fetchData refetch (resetForm s)).1) ∧
      ((handleUpdateRequest pI pF (FetchOutcome.success ()) refetch s).2
        = (fetchData refetch (resetForm s)).2) ∧
      (((handleUpdateRequest pI pF (FetchOutcome.success ()) refetch s).2).formData
          = defaultFormData ∧
       ((handleUpdateRequest pI pF (FetchOutcome.success ()) refetch s).2).showRequestForm
          = false ∧
       ((handleUpdateRequest pI pF (FetchOutcome.success ()) refetch s).2).editingRequest
          = none)) ∧
    (s.editingRequest = none →
      handleUpdateRequest pI pF outcome refetch s = ([], s)) := by
  have hform : ∀ t : DashState, ((fetchData refetch t).2).formData = t.formData := by
    intro t
    cases refetch <;> rfl
  have hshow : ∀ t : DashState, ((fetchData refetch t).2).showRequestForm
      = t.showRequestForm := by
    intro t
    cases refetch <;> rfl
  have hedit : ∀ t : DashState, ((fetchData refetch t).2).editingRequest
      = t.editingRequest := by
    intro t
    cases refetch <;> rfl
  refine ⟨?_, ?_, ⟨?_, ?_, ?_⟩, ?_, ?_⟩
  · simp [handleCreateRequest, formBody, resetForm]
  · simp [handleCreateRequest, formBody, resetForm]
  · rw [show (handleCreateRequest pI pF (FetchOutcome.success ()) refetch s).2
        = (fetchData refetch (resetForm s)).2 from by
          simp [handleCreateRequest, resetForm], hform]
    rfl
  · rw [show (handleCreateRequest pI pF (FetchOutcome.success ()) refetch s).2
        = (fetchData refetch (resetForm s)).2 from by
          simp [handleCreateRequest, resetForm], hshow]
    rfl
  · rw [show (handleCreateRequest pI pF (FetchOutcome.success ()) refetch s).2
        = (fetchData refetch (resetForm s)).2 from by
          simp [handleCreateRequest, resetForm], hedit]
    rfl
  · intro he
    have hu : (handleUpdateRequest pI pF (FetchOutcome.success ()) refetch s).1
          = ⟨Method.PUT, "/requests/" ++ toString req.id,
              some (Body.requestB (formBody pI pF s.formData))⟩
            :: (fetchData refetch (resetForm s)).1 ∧
        (handleUpdateRequest pI pF (FetchOutcome.success ()) refetch s).2
          = (fetchData refetch (resetForm s)).2 := by
      constructor <;> simp [handleUpdateRequest, he, resetForm]
    refine ⟨?_, hu.2, ?_, ?_, ?_⟩
    · rw [hu.1]
      rfl
    · rw [hu.2, hform]
      rfl
    · rw [hu.2, hshow]
      rfl
    · rw [hu.2, hedit]
      rfl
  · intro he
    simp [handleUpdateRequest, he]

end Frontend
